import Mathlib

/-
Verification of the `CharacterDisplay` interface contract
(src/CharacterDisplay.hpp, namespace lr::lcd).

The header declares only pure-virtual operations; no driver implementation
ships with the repository.  The reference model below therefore realises a
conforming driver, modelled from the specification and from the doc
comments of the header itself.  The display memory is a linear sequence of
character cells of size `columns * rows` (the header: the text is written
"sequentially in the chosen direction to the display memory"); the visible
grid coordinate of a memory address `a` is `(a % columns, a / columns)`.
-/

namespace lr
namespace lcd

/-- Modelled from the spec: the external status taxonomy (`CallStatus`
from hal-common/StatusTools.hpp, not part of this repository).  A uniform
call-result value: success, a categorized failure, and the standardized
"operation not supported by this driver" outcome for optional
operations. -/
inductive CallStatus where
  | Success
  | Error
  | NotSupported
deriving DecidableEq

/-- Modelled from the spec: the external generic directional enumeration
(`Direction` from hal-common/Direction.hpp, not part of this repository),
reused by the header as `ScrollDirection`. -/
inductive Direction where
  | Left
  | Right
  | Up
  | Down
deriving DecidableEq

/-- Modelled from the spec: the external writing-direction enumeration
(hal-common/WritingDirection.hpp, not part of this repository), selecting
left-to-right vs. right-to-left text flow. -/
inductive WritingDirection where
  | LeftToRight
  | RightToLeft
deriving DecidableEq

/-- The cursor mode, translated from `CharacterDisplay::CursorMode`:
`Off` (no cursor), `Line` (a line), `Block` (a blinking block). -/
inductive CursorMode where
  | Off
  | Line
  | Block
deriving DecidableEq

/-- The observable state of a character display driver: the fixed grid
dimensions, the character cells as linear display memory (`none` = empty
cell), the cursor as a memory address, and the display flags described by
the header (shift, cursor mode, writing direction, auto scroll, backlight,
enabled). -/
structure DisplayState where
  columns : Nat
  rows : Nat
  cells : List (Option Char)
  cursor : Nat
  shifted : Bool
  cursorMode : CursorMode
  writingDirection : WritingDirection
  autoScroll : Bool
  backlight : Bool
  enabled : Bool
deriving DecidableEq

/-- Size of the display memory. -/
def DisplayState.size (s : DisplayState) : Nat :=
  s.columns * s.rows

/-- Visible x coordinate (column) of the cursor. -/
def DisplayState.cursorX (s : DisplayState) : Nat :=
  s.cursor % s.columns

/-- Visible y coordinate (row) of the cursor. -/
def DisplayState.cursorY (s : DisplayState) : Nat :=
  s.cursor / s.columns

/-- Every character cell of the display is empty. -/
def DisplayState.allCellsEmpty (s : DisplayState) : Bool :=
  s.cells.all Option.isNone

/-- Modelled from the spec: `reset()` restores the defined initial state —
screen empty, cursor at position (0, 0), display not shifted, cursor not
visible (Off), writing direction left to right, auto scroll off.  The
backlight is not affected. -/
def reset (s : DisplayState) : CallStatus × DisplayState :=
  (.Success, { s with
    cells := List.replicate (s.columns * s.rows) none
    cursor := 0
    shifted := false
    cursorMode := .Off
    writingDirection := .LeftToRight
    autoScroll := false })

/-- Modelled from the spec: `clear()` clears the display and sets the
cursor to position (0, 0); nothing else changes. -/
def clear (s : DisplayState) : CallStatus × DisplayState :=
  (.Success, { s with
    cells := List.replicate (s.columns * s.rows) none
    cursor := 0 })

/-- Modelled from the spec: `cursorReset()` resets the cursor position to
(0, 0) without clearing content. -/
def cursorReset (s : DisplayState) : CallStatus × DisplayState :=
  (.Success, { s with cursor := 0 })

/-- Modelled from the spec: `setCursor(x, y)` moves the cursor to the
given location.  The header declares both coordinates as `uint8_t`, so
each argument is reduced modulo 2^8 at the interface boundary. -/
def setCursor (x y : Nat) (s : DisplayState) : CallStatus × DisplayState :=
  (.Success, { s with cursor := (y % 256) * s.columns + (x % 256) })

/-- One cursor step through the linear display memory in the active
writing direction (left to right advances the address, right to left
retreats it), modulo the memory size. -/
def advanceCursor (s : DisplayState) : Nat :=
  match s.writingDirection with
  | .LeftToRight => (s.cursor + 1) % (s.columns * s.rows)
  | .RightToLeft => (s.cursor + (s.columns * s.rows - 1)) % (s.columns * s.rows)

/-- Modelled from the spec: `writeChar(c)` writes one character into the
cell at the current cursor position and advances the cursor one position
in the chosen writing direction.  No character — line breaks included —
receives special handling; the caller uses `setCursor` for logical line
changes. -/
def writeChar (c : Char) (s : DisplayState) : CallStatus × DisplayState :=
  (.Success, { s with
    cells := s.cells.set s.cursor (some c)
    cursor := advanceCursor s })

/-- Modelled from the spec: `writeText(text)` writes the text
sequentially in the chosen direction to the display memory, character by
character, with no automatic line wrapping. -/
def writeText : List Char → DisplayState → CallStatus × DisplayState
  | [], s => (.Success, s)
  | c :: cs, s =>
      writeText cs { s with
        cells := s.cells.set s.cursor (some c)
        cursor := advanceCursor s }

/-- Modelled from the spec: the managed-string overload of `writeText`
writes the same character sequence as the raw-sequence overload. -/
def writeTextString (t : String) (s : DisplayState) : CallStatus × DisplayState :=
  writeText t.data s

/-- Modelled from the spec: `setEnabled(enabled)` powers the display
output on or off. -/
def setEnabled (b : Bool) (s : DisplayState) : CallStatus × DisplayState :=
  (.Success, { s with enabled := b })

/-- Modelled from the spec: `setCursorMode(mode)` sets the visual cursor
style. -/
def setCursorMode (m : CursorMode) (s : DisplayState) : CallStatus × DisplayState :=
  (.Success, { s with cursorMode := m })

/-- Modelled from the spec: `setBacklightEnabled(enabled)` toggles the
backlight of the display, independently of `reset()`. -/
def setBacklightEnabled (b : Bool) (s : DisplayState) : CallStatus × DisplayState :=
  (.Success, { s with backlight := b })

/-- Modelled from the spec: `setWritingDirection(writingDirection)` sets
the text flow for subsequent writes. -/
def setWritingDirection (d : WritingDirection) (s : DisplayState) : CallStatus × DisplayState :=
  (.Success, { s with writingDirection := d })

/-- Modelled from the spec: `setAutoScrollEnabled(enabled)` enables or
disables automatic scrolling. -/
def setAutoScrollEnabled (b : Bool) (s : DisplayState) : CallStatus × DisplayState :=
  (.Success, { s with autoScroll := b })

/-- Content of the display memory after shifting every row one column to
the left: address `a` receives the old content of `a + 1` unless `a` is
the last column of its row, which becomes empty. -/
def scrolledCellsLeft (columns : Nat) (cells : List (Option Char)) : List (Option Char) :=
  (List.range cells.length).map fun i =>
    if (i + 1) % columns = 0 then none else cells.getD (i + 1) none

/-- Content of the display memory after shifting every row one column to
the right: address `a` receives the old content of `a - 1` unless `a` is
the first column of its row, which becomes empty. -/
def scrolledCellsRight (columns : Nat) (cells : List (Option Char)) : List (Option Char) :=
  (List.range cells.length).map fun i =>
    if i % columns = 0 then none else cells.getD (i - 1) none

/-- Modelled from the spec: `scroll(direction)` shifts the displayed
content one step in the given direction.  This driver supports the two
horizontal directions; the vertical ones signal `NotSupported` through the
status and leave the state untouched. -/
def scroll (d : Direction) (s : DisplayState) : CallStatus × DisplayState :=
  match d with
  | .Left => (.Success, { s with
      cells := scrolledCellsLeft s.columns s.cells
      shifted := true })
  | .Right => (.Success, { s with
      cells := scrolledCellsRight s.columns s.cells
      shifted := true })
  | .Up => (.NotSupported, s)
  | .Down => (.NotSupported, s)

/-- Modelled from the spec: the state of a freshly constructed driver,
identical to the state after `reset()` (the header: reset restores the
state the display has after `initialize()`). -/
def initialState (columns rows : Nat) (backlight : Bool) : DisplayState :=
  { columns := columns
    rows := rows
    cells := List.replicate (columns * rows) none
    cursor := 0
    shifted := false
    cursorMode := .Off
    writingDirection := .LeftToRight
    autoScroll := false
    backlight := backlight
    enabled := true }

/-- The cursor-position invariant: the cursor address lies inside the
display memory, which is equivalent to 0 ≤ x < columns and 0 ≤ y < rows
for the visible coordinates. -/
def cursorInBounds (s : DisplayState) : Prop :=
  s.cursor < s.columns * s.rows

instance (s : DisplayState) : Decidable (cursorInBounds s) := by
  unfold cursorInBounds
  infer_instance

/-- A concrete 16x2 display used to witness the theorems below. -/
def sampleState : DisplayState :=
  initialState 16 2 false

theorem all_replicate_none (n : Nat) :
    (List.replicate n (none : Option Char)).all Option.isNone = true := by
  induction n with
  | zero => rfl
  | succ n ih => simp [List.replicate, ih]

theorem writeText_foldl (l : List Char) (s : DisplayState) :
    writeText l s = (CallStatus.Success, l.foldl (fun st c => (writeChar c st).2) s) := by
  induction l generalizing s with
  | nil => rfl
  | cons c cs ih => exact ih ((writeChar c s).2)

theorem writeText_backlight (l : List Char) (s : DisplayState) :
    (writeText l s).2.backlight = s.backlight := by
  induction l generalizing s with
  | nil => rfl
  | cons c cs ih => exact ih ((writeChar c s).2)

theorem writeText_columns (l : List Char) (s : DisplayState) :
    (writeText l s).2.columns = s.columns := by
  induction l generalizing s with
  | nil => rfl
  | cons c cs ih => exact ih ((writeChar c s).2)

theorem writeText_rows (l : List Char) (s : DisplayState) :
    (writeText l s).2.rows = s.rows := by
  induction l generalizing s with
  | nil => rfl
  | cons c cs ih => exact ih ((writeChar c s).2)

/-- C1: for the modelled conforming driver and every starting state, after
`reset()` returns successfully every character cell is empty, the cursor
is at position (0, 0), the display is not shifted, the cursor mode is Off,
the writing direction is left-to-right, and auto-scroll is off. -/
theorem reset_establishes_initial_state (s : DisplayState)
    (h : (reset s).1 = CallStatus.Success) :
    (reset s).2.allCellsEmpty = true ∧
    (reset s).2.cursorX = 0 ∧ (reset s).2.cursorY = 0 ∧
    (reset s).2.shifted = false ∧
    (reset s).2.cursorMode = CursorMode.Off ∧
    (reset s).2.writingDirection = WritingDirection.LeftToRight ∧
    (reset s).2.autoScroll = false := by
  refine ⟨?_, ?_, ?_, rfl, rfl, rfl, rfl⟩
  · exact all_replicate_none (s.columns * s.rows)
  · simp [reset, DisplayState.cursorX]
  · simp [reset, DisplayState.cursorY]

theorem reset_establishes_initial_state_witness :
    (reset sampleState).1 = CallStatus.Success ∧
    (reset sampleState).2.allCellsEmpty = true ∧
    (reset sampleState).2.cursorX = 0 :=
  ⟨rfl, (reset_establishes_initial_state sampleState rfl).1,
    (reset_establishes_initial_state sampleState rfl).2.1⟩

/-- C2: for the modelled conforming driver and every starting state, after
`clear()` returns successfully the cursor is at (0, 0) and all character
cells are empty; no other part of the state (writing direction, cursor
mode, auto-scroll, backlight, shift, enabled) changes. -/
theorem clear_clears_and_homes_cursor (s : DisplayState)
    (h : (clear s).1 = CallStatus.Success) :
    (clear s).2.cursorX = 0 ∧ (clear s).2.cursorY = 0 ∧
    (clear s).2.allCellsEmpty = true ∧
    (clear s).2.writingDirection = s.writingDirection ∧
    (clear s).2.cursorMode = s.cursorMode ∧
    (clear s).2.autoScroll = s.autoScroll ∧
    (clear s).2.backlight = s.backlight ∧
    (clear s).2.shifted = s.shifted ∧
    (clear s).2.enabled = s.enabled := by
  refine ⟨?_, ?_, ?_, rfl, rfl, rfl, rfl, rfl, rfl⟩
  · simp [clear, DisplayState.cursorX]
  · simp [clear, DisplayState.cursorY]
  · exact all_replicate_none (s.columns * s.rows)

theorem clear_clears_and_homes_cursor_witness :
    (clear (writeChar 'A' sampleState).2).1 = CallStatus.Success ∧
    (clear (writeChar 'A' sampleState).2).2.allCellsEmpty = true :=
  ⟨rfl, (clear_clears_and_homes_cursor (writeChar 'A' sampleState).2 rfl).2.2.1⟩

/-- C5: for the modelled conforming driver and every starting state, the
backlight after `reset()` equals the backlight before; every operation
other than `setBacklightEnabled` leaves the backlight unchanged, and
`setBacklightEnabled` sets exactly the backlight field. -/
theorem reset_leaves_backlight_unchanged (s : DisplayState) (b : Bool)
    (x y : Nat) (c : Char) (l : List Char) (m : CursorMode)
    (w : WritingDirection) (d : Direction) :
    (reset s).2.backlight = s.backlight ∧
    (clear s).2.backlight = s.backlight ∧
    (cursorReset s).2.backlight = s.backlight ∧
    (setCursor x y s).2.backlight = s.backlight ∧
    (writeChar c s).2.backlight = s.backlight ∧
    (writeText l s).2.backlight = s.backlight ∧
    (setEnabled b s).2.backlight = s.backlight ∧
    (setCursorMode m s).2.backlight = s.backlight ∧
    (setWritingDirection w s).2.backlight = s.backlight ∧
    (setAutoScrollEnabled b s).2.backlight = s.backlight ∧
    (scroll d s).2.backlight = s.backlight ∧
    (setBacklightEnabled b s).2 = { s with backlight := b } := by
  refine ⟨rfl, rfl, rfl, rfl, rfl, writeText_backlight l s,
    rfl, rfl, rfl, rfl, ?_, rfl⟩
  cases d <;> rfl

/-- C6: for the modelled conforming driver and every starting state, after
`cursorReset()` the cursor is at (0, 0) and every character cell holds
exactly the content it held before; nothing else of the state changes. -/
theorem cursorReset_homes_cursor_keeps_content (s : DisplayState) :
    (cursorReset s).2.cursorX = 0 ∧ (cursorReset s).2.cursorY = 0 ∧
    (cursorReset s).2.cells = s.cells ∧
    (cursorReset s).2.cursorMode = s.cursorMode ∧
    (cursorReset s).2.writingDirection = s.writingDirection ∧
    (cursorReset s).2.autoScroll = s.autoScroll ∧
    (cursorReset s).2.backlight = s.backlight ∧
    (cursorReset s).2.shifted = s.shifted ∧
    (cursorReset s).2.enabled = s.enabled := by
  refine ⟨?_, ?_, rfl, rfl, rfl, rfl, rfl, rfl, rfl⟩
  · simp [cursorReset, DisplayState.cursorX]
  · simp [cursorReset, DisplayState.cursorY]

/-- C7: for the modelled conforming driver, `setCursor(x, y)` with
coordinates within the declared bounds is idempotent: calling it twice in
succession with the same arguments yields the same state as calling it
once. -/
theorem setCursor_idempotent (x y : Nat) (s : DisplayState)
    (hx : x < s.columns) (hy : y < s.rows) :
    (setCursor x y (setCursor x y s).2).2 = (setCursor x y s).2 := rfl

theorem setCursor_idempotent_witness :
    3 < sampleState.columns ∧ 1 < sampleState.rows ∧
    (setCursor 3 1 (setCursor 3 1 sampleState).2).2 = (setCursor 3 1 sampleState).2 :=
  ⟨by decide, by decide, setCursor_idempotent 3 1 sampleState (by decide) (by decide)⟩

/-- C3: for the modelled conforming driver, every starting state and
every text (in either overload), `writeText` produces exactly the state of
calling `writeChar` once per character of the text, in order, always with
success status; the managed-string overload writes the same character
sequence as the raw one.  No step other than the per-character
`writeChar` effect occurs, so no automatic line wrapping is performed. -/
theorem writeText_refines_writeChar :
    (∀ (l : List Char) (s : DisplayState),
      writeText l s = (CallStatus.Success, l.foldl (fun st c => (writeChar c st).2) s)) ∧
    (∀ (t : String) (s : DisplayState), writeTextString t s = writeText t.data s) :=
  ⟨writeText_foldl, fun _ _ => rfl⟩

/-- C4: for the modelled conforming driver and every character `c` —
including a line break, which gets no special interpretation —
`writeChar c` stores `c` in the cell at the current cursor position,
leaves every other cell unchanged, and advances the cursor by one
position per the active writing direction; the advance is uniform in `c`,
so no line wrapping is ever inserted by `writeChar` itself. -/
theorem writeChar_writes_at_cursor (c : Char) (s : DisplayState)
    (h : s.cursor < s.cells.length) :
    (writeChar c s).2.cells = s.cells.set s.cursor (some c) ∧
    ((writeChar c s).2.cells).get? s.cursor = some (some c) ∧
    (∀ i, i ≠ s.cursor → ((writeChar c s).2.cells).get? i = s.cells.get? i) ∧
    (writeChar c s).2.cursor = advanceCursor s ∧
    (s.writingDirection = WritingDirection.LeftToRight →
      (writeChar c s).2.cursor = (s.cursor + 1) % (s.columns * s.rows)) ∧
    (s.writingDirection = WritingDirection.RightToLeft →
      (writeChar c s).2.cursor = (s.cursor + (s.columns * s.rows - 1)) % (s.columns * s.rows)) := by
  refine ⟨rfl, ?_, ?_, rfl, ?_, ?_⟩
  · simp [writeChar, List.getElem?_set_eq_of_lt _ h]
  · intro i hi
    simp [writeChar, List.getElem?_set_ne (Ne.symm hi)]
  · intro hw
    simp [writeChar, advanceCursor, hw]
  · intro hw
    simp [writeChar, advanceCursor, hw]

theorem writeChar_writes_at_cursor_witness :
    sampleState.cursor < sampleState.cells.length ∧
    ((writeChar '\n' sampleState).2.cells).get? sampleState.cursor = some (some '\n') :=
  ⟨by decide, (writeChar_writes_at_cursor '\n' sampleState (by decide)).2.1⟩

/-- C10: the header declares the coordinates of `setCursor` as `uint8_t`,
so in the embedding each argument is reduced modulo 2^8: every call is
indistinguishable from a call with both coordinates in 0..255, and no
position beyond column 255 or row 255 is addressable. -/
theorem setCursor_coords_are_uint8 (x y : Nat) (s : DisplayState) :
    setCursor x y s = setCursor (x % 256) (y % 256) s ∧
    (setCursor x y s).2.cursor = (y % 256) * s.columns + (x % 256) ∧
    x % 256 < 256 ∧ y % 256 < 256 := by
  refine ⟨?_, rfl, Nat.mod_lt x (by decide), Nat.mod_lt y (by decide)⟩
  simp [setCursor]

theorem setCursor_bound {x y cols rws : Nat} (hx : x < cols) (hy : y < rws) :
    (y % 256) * cols + (x % 256) < cols * rws := by
  have hx' : x % 256 < cols := lt_of_le_of_lt (Nat.mod_le x 256) hx
  have hy' : y % 256 + 1 ≤ rws := Nat.succ_le_of_lt (lt_of_le_of_lt (Nat.mod_le y 256) hy)
  calc (y % 256) * cols + (x % 256)
      < (y % 256) * cols + cols := Nat.add_lt_add_left hx' _
    _ = (y % 256 + 1) * cols := (Nat.succ_mul _ _).symm
    _ ≤ rws * cols := Nat.mul_le_mul_right cols hy'
    _ = cols * rws := Nat.mul_comm _ _

theorem advanceCursor_lt (s : DisplayState) (h : 0 < s.columns * s.rows) :
    advanceCursor s < s.columns * s.rows := by
  unfold advanceCursor
  split <;> exact Nat.mod_lt _ h

theorem writeText_cursorInBounds (l : List Char) (s : DisplayState)
    (hc : 0 < s.columns) (hr : 0 < s.rows) (h : cursorInBounds s) :
    cursorInBounds (writeText l s).2 := by
  induction l generalizing s with
  | nil => exact h
  | cons c cs ih =>
      simp only [writeText]
      exact ih _ hc hr (advanceCursor_lt s (Nat.mul_pos hc hr))

/-- C8: for the modelled conforming driver with positive dimensions, the
cursor-position invariant (the cursor address lies inside the display
memory, i.e. 0 ≤ x < columns and 0 ≤ y < rows) holds in the initial state
and is preserved by every operation of the interface: reset, clear,
cursorReset, setCursor with in-range arguments, writeChar, writeText, and
all optional operations. -/
theorem cursor_invariant_preserved (columns rws : Nat) (bl : Bool)
    (hc : 0 < columns) (hr : 0 < rws) :
    cursorInBounds (initialState columns rws bl) ∧
    ∀ s : DisplayState, 0 < s.columns → 0 < s.rows → cursorInBounds s →
      cursorInBounds (reset s).2 ∧
      cursorInBounds (clear s).2 ∧
      cursorInBounds (cursorReset s).2 ∧
      (∀ x y, x < s.columns → y < s.rows → cursorInBounds (setCursor x y s).2) ∧
      (∀ c, cursorInBounds (writeChar c s).2) ∧
      (∀ l, cursorInBounds (writeText l s).2) ∧
      (∀ t, cursorInBounds (writeTextString t s).2) ∧
      (∀ b, cursorInBounds (setEnabled b s).2) ∧
      (∀ m, cursorInBounds (setCursorMode m s).2) ∧
      (∀ b, cursorInBounds (setBacklightEnabled b s).2) ∧
      (∀ w, cursorInBounds (setWritingDirection w s).2) ∧
      (∀ b, cursorInBounds (setAutoScrollEnabled b s).2) ∧
      (∀ d, cursorInBounds (scroll d s).2) := by
  constructor
  · exact Nat.mul_pos hc hr
  · intro s hsc hsr hs
    have hsize : 0 < s.columns * s.rows := Nat.mul_pos hsc hsr
    refine ⟨hsize, hsize, hsize, ?_, ?_, ?_, ?_, ?_, ?_, ?_, ?_, ?_, ?_⟩
    · intro x y hx hy
      exact setCursor_bound hx hy
    · intro c
      exact advanceCursor_lt s hsize
    · intro l
      exact writeText_cursorInBounds l s hsc hsr hs
    · intro t
      exact writeText_cursorInBounds t.data s hsc hsr hs
    · intro b
      exact hs
    · intro m
      exact hs
    · intro b
      exact hs
    · intro w
      exact hs
    · intro b
      exact hs
    · intro d
      cases d <;> exact hs

theorem cursor_invariant_preserved_witness :
    0 < (16 : Nat) ∧ 0 < (2 : Nat) ∧ cursorInBounds (initialState 16 2 false) :=
  ⟨by decide, by decide, (cursor_invariant_preserved 16 2 false (by decide) (by decide)).1⟩

/-- C9: for the modelled conforming driver, every optional operation
either performs its documented effect on the state with success status or
returns `NotSupported`; none returns success while omitting its effect
without a status indication.  The horizontal scroll directions shift the
content and succeed; the vertical ones report `NotSupported` and leave
the state untouched. -/
theorem optional_operations_effect_or_not_supported (s : DisplayState) :
    (∀ b, ((setEnabled b s).1 = CallStatus.Success ∧ (setEnabled b s).2.enabled = b) ∨
      (setEnabled b s).1 = CallStatus.NotSupported) ∧
    (∀ m, ((setCursorMode m s).1 = CallStatus.Success ∧ (setCursorMode m s).2.cursorMode = m) ∨
      (setCursorMode m s).1 = CallStatus.NotSupported) ∧
    (∀ b, ((setBacklightEnabled b s).1 = CallStatus.Success ∧
        (setBacklightEnabled b s).2.backlight = b) ∨
      (setBacklightEnabled b s).1 = CallStatus.NotSupported) ∧
    (∀ w, ((setWritingDirection w s).1 = CallStatus.Success ∧
        (setWritingDirection w s).2.writingDirection = w) ∨
      (setWritingDirection w s).1 = CallStatus.NotSupported) ∧
    (∀ b, ((setAutoScrollEnabled b s).1 = CallStatus.Success ∧
        (setAutoScrollEnabled b s).2.autoScroll = b) ∨
      (setAutoScrollEnabled b s).1 = CallStatus.NotSupported) ∧
    (∀ d, ((scroll d s).1 = CallStatus.Success ∧
        ((d = Direction.Left ∧ (scroll d s).2.cells = scrolledCellsLeft s.columns s.cells) ∨
         (d = Direction.Right ∧ (scroll d s).2.cells = scrolledCellsRight s.columns s.cells))) ∨
      ((scroll d s).1 = CallStatus.NotSupported ∧ (scroll d s).2 = s)) := by
  refine ⟨?_, ?_, ?_, ?_, ?_, ?_⟩
  · intro b
    exact Or.inl ⟨rfl, rfl⟩
  · intro m
    exact Or.inl ⟨rfl, rfl⟩
  · intro b
    exact Or.inl ⟨rfl, rfl⟩
  · intro w
    exact Or.inl ⟨rfl, rfl⟩
  · intro b
    exact Or.inl ⟨rfl, rfl⟩
  · intro d
    cases d with
    | Left => exact Or.inl ⟨rfl, Or.inl ⟨rfl, rfl⟩⟩
    | Right => exact Or.inl ⟨rfl, Or.inr ⟨rfl, rfl⟩⟩
    | Up => exact Or.inr ⟨rfl, rfl⟩
    | Down => exact Or.inr ⟨rfl, rfl⟩

end lcd
end lr
